import Mathlib

/-!
Verification of the massing-report 3D viewer core against its specification.

The definitions below are a shallow embedding of the viewer source:
  - ZoningEnvelope.jsx      : the zoning-envelope projector and sky exposure plane
  - BuildingMesh / FloorMesh / BulkheadMesh : the massing builder (floor extrusion)
  - LotPlane                : lot boundary and fill
  - App / ComparisonView    : interaction state and comparison-scenario selection

Coordinates are rationals (the source uses exact decimal constants such as
0.3, 0.2, 0.15 and 2.7, all representable in Rat).  JavaScript falsiness of
numeric fields (a missing field or the number 0 both select the default in
expressions of the form  lot.frontage_ft || 50) is modelled by jsOr.
-/

/-- Model of the JavaScript idiom  v || d  for an optional numeric field:
a missing value or the number 0 is falsy and selects the default. -/
def jsOr (v : Option ℚ) (d : ℚ) : ℚ :=
  match v with
  | none => d
  | some x => if x = 0 then d else x

/-- Three.js point: x across the lot width, y up, z into the lot depth. -/
structure Point3 where
  x : ℚ
  y : ℚ
  z : ℚ
  deriving DecidableEq, Repr

/-- Lot record as consumed by the viewer (fields the viewer reads). -/
structure Lot where
  polygon : Option (List (ℚ × ℚ))
  frontage_ft : Option ℚ
  depth_ft : Option ℚ
  deriving DecidableEq, Repr

/-- Sky-exposure-plane parameters, ZoningEnvelope.jsx lines 148-152. -/
structure SkyExposureParams where
  start_height : Option ℚ
  slope : Option ℚ
  deriving DecidableEq, Repr

/-- Zoning-envelope record as consumed by the projector. -/
structure ZoningEnvelope where
  max_height_ft : Option ℚ
  base_height_max_ft : Option ℚ
  setback_line : Option (List (ℚ × ℚ))
  sky_exposure_plane : Option SkyExposureParams
  deriving DecidableEq, Repr

/-- One visual element emitted by the envelope projector.  Planes carry the
geometry size (w+4, d+4 in the source) and the mesh position; lines carry
their point lists. -/
inductive RenderElem where
  | maxPlane (sizeX sizeZ cx y cz : ℚ)
  | maxBorder (pts : List Point3)
  | basePlane (sizeX sizeZ cx y cz : ℚ)
  | baseBorder (pts : List Point3)
  | verticalEdge (bottom top : Point3)
  | setbackAtGrade (pts : List Point3)
  | setbackAtBase (pts : List Point3)
  | setbackVertical (bottom top : Point3)
  | skyExposure (verts : List Point3)
  deriving DecidableEq, Repr

/-- Vertex list of the sky-exposure quad, ZoningEnvelope.jsx lines 148-178:
front edge at the start height on z = 0, far edge at z = d with height
min (startH + d * slope) 300.  The triangle indices [0,1,2,0,2,3] are fixed
and carried implicitly. -/
def SkyExposurePlaneVerts (sep : SkyExposureParams) (lot : Lot) : List Point3 :=
  let w := jsOr lot.frontage_ft 50
  let d := jsOr lot.depth_ft 100
  let startH := jsOr sep.start_height 60
  let slope := jsOr sep.slope (27/10)
  [⟨0, startH, 0⟩, ⟨w, startH, 0⟩,
   ⟨w, min (startH + d * slope) 300, d⟩,
   ⟨0, min (startH + d * slope) 300, d⟩]

/-- The envelope projector, ZoningEnvelope.jsx lines 12-142, as the list of
elements it renders, in JSX order: max-height plane and border, conditional
base-height plane and border, the four vertical corner edges, conditional
setback lines (at grade, at base height, one connecting vertical edge at the
first vertex), and the optional sky-exposure plane. -/
def renderZoningEnvelope (envelope : ZoningEnvelope) (lot : Lot) : List RenderElem :=
  let w := jsOr lot.frontage_ft 50
  let d := jsOr lot.depth_ft 100
  let maxH := jsOr envelope.max_height_ft 100
  let baseH := jsOr envelope.base_height_max_ft 60
  let corners : List (ℚ × ℚ) := [(0, 0), (w, 0), (w, d), (0, d)]
  [RenderElem.maxPlane (w + 4) (d + 4) (w / 2) maxH (d / 2),
   RenderElem.maxBorder
     [⟨0, maxH, 0⟩, ⟨w, maxH, 0⟩, ⟨w, maxH, d⟩, ⟨0, maxH, d⟩, ⟨0, maxH, 0⟩]]
  ++ (if 0 < baseH ∧ baseH < maxH then
        [RenderElem.basePlane (w + 4) (d + 4) (w / 2) baseH (d / 2),
         RenderElem.baseBorder
           [⟨0, baseH, 0⟩, ⟨w, baseH, 0⟩, ⟨w, baseH, d⟩, ⟨0, baseH, d⟩, ⟨0, baseH, 0⟩]]
      else [])
  ++ corners.map (fun c => RenderElem.verticalEdge ⟨c.1, 0, c.2⟩ ⟨c.1, maxH, c.2⟩)
  ++ (match envelope.setback_line with
      | some sb =>
        match sb with
        | p0 :: p1 :: rest =>
          [RenderElem.setbackAtGrade
             ((p0 :: p1 :: rest).map fun p => Point3.mk p.1 (1/5) p.2),
           RenderElem.setbackAtBase
             ((p0 :: p1 :: rest).map fun p => Point3.mk p.1 baseH p.2),
           RenderElem.setbackVertical ⟨p0.1, 1/5, p0.2⟩ ⟨p0.1, baseH, p0.2⟩]
        | _ => []
      | none => [])
  ++ (match envelope.sky_exposure_plane with
      | some sep => [RenderElem.skyExposure (SkyExposurePlaneVerts sep lot)]
      | none => [])

/-- True exactly on base-height plane elements. -/
def isBasePlane : RenderElem → Bool
  | RenderElem.basePlane _ _ _ _ _ => true
  | _ => false

/-- True exactly on max-height plane elements. -/
def isMaxPlane : RenderElem → Bool
  | RenderElem.maxPlane _ _ _ _ _ => true
  | _ => false

/-- True exactly on vertical corner edges. -/
def isVerticalEdge : RenderElem → Bool
  | RenderElem.verticalEdge _ _ => true
  | _ => false

/-- True exactly on setback-at-grade lines. -/
def isSetbackAtGrade : RenderElem → Bool
  | RenderElem.setbackAtGrade _ => true
  | _ => false

/-- True exactly on setback-at-base-height lines all of whose points lie at
elevation y. -/
def isSetbackAtBaseY (y : ℚ) : RenderElem → Bool
  | RenderElem.setbackAtBase pts => pts.all fun p => p.y == y
  | _ => false

/-- Color map for floor use types, BuildingMesh source lines 175-183. -/
def USE_COLORS : List (String × String) :=
  [("commercial", "#4A90D9"),
   ("residential", "#F5E6CC"),
   ("community_facility", "#6BBF6B"),
   ("parking", "#999999"),
   ("mechanical", "#777777"),
   ("cellar", "#777777"),
   ("core", "#555555")]

/-- Value of a JavaScript property read on the USE_COLORS object literal:
one of its own string entries, a (truthy, non-string) value inherited from
Object.prototype, or undefined. -/
inductive JsValue where
  | str (s : String)
  | protoFn (name : String)
  | undef
  deriving DecidableEq, Repr

/-- Property names every object literal inherits from Object.prototype.
Reading one of them on USE_COLORS yields a function (or, for __proto__, the
prototype object), never undefined. -/
def OBJECT_PROTOTYPE_KEYS : List String :=
  ["constructor", "hasOwnProperty", "isPrototypeOf", "propertyIsEnumerable",
   "toLocaleString", "toString", "valueOf", "__proto__", "__defineGetter__",
   "__defineSetter__", "__lookupGetter__", "__lookupSetter__"]

/-- The object lookup USE_COLORS[u]: an own property yields its string
entry; otherwise the lookup walks the prototype chain, so a property name
inherited from Object.prototype yields that inherited value; only the
remaining names give undefined. -/
def jsIndexUseColors (u : String) : JsValue :=
  match USE_COLORS.find? (fun p => p.1 == u) with
  | some p => JsValue.str p.2
  | none =>
    if u ∈ OBJECT_PROTOTYPE_KEYS then JsValue.protoFn u else JsValue.undef

/-- JavaScript truthiness of such a value: a nonempty string and every
inherited function or object are truthy, undefined is falsy. -/
def jsTruthy : JsValue → Bool
  | JsValue.str s => !(s == "")
  | JsValue.protoFn _ => true
  | JsValue.undef => false

/-- The color expression of BuildingMesh source line 262, the lookup
followed by the gray default, where the default engages only when the
lookup is falsy. -/
def useColor (u : String) : JsValue :=
  if jsTruthy (jsIndexUseColors u) then jsIndexUseColors u
  else JsValue.str "#cccccc"

/-- The seven enumerated use values of the palette. -/
def enumeratedUses : List String :=
  ["commercial", "residential", "community_facility", "parking",
   "mechanical", "cellar", "core"]

/-- Gap between floors for visual clarity, BuildingMesh source line 185. -/
def FLOOR_GAP : ℚ := 3/10

/-- Floor record (fields the viewer reads). -/
structure Floor where
  floor_num : Int
  use : String
  elevation_ft : ℚ
  height_ft : ℚ
  footprint : Option (List (ℚ × ℚ))
  deriving DecidableEq, Repr

/-- Bulkhead record (fields the viewer reads). -/
structure Bulkhead where
  footprint : Option (List (ℚ × ℚ))
  height_ft : ℚ
  elevation_ft : ℚ
  deriving DecidableEq, Repr

/-- An extruded solid: footprint polygon extruded vertically from baseY up to
baseY + extrudeHeight, painted in one color. -/
structure Solid where
  baseY : ℚ
  extrudeHeight : ℚ
  footprint : List (ℚ × ℚ)
  color : JsValue
  deriving DecidableEq, Repr

/-- Bottom elevation of a solid. -/
def solidBottom (s : Solid) : ℚ := s.baseY

/-- Top elevation of a solid. -/
def solidTop (s : Solid) : ℚ := s.baseY + s.extrudeHeight

/-- FloorMesh, BuildingMesh source lines 229-324: a missing footprint or one
with fewer than 3 points yields no geometry (the component returns null);
otherwise the footprint is extruded by height_ft - FLOOR_GAP (the extrusion
runs along +Z and rotateX (-pi/2) turns it into the vertical span [0,
height_ft - FLOOR_GAP]) and the group is positioned at
elevation_ft + FLOOR_GAP / 2.  The color is the line-262 lookup expression
modelled by useColor. -/
def FloorMesh (floor : Floor) : Option Solid :=
  match floor.footprint with
  | none => none
  | some poly =>
    if poly.length < 3 then none
    else
      some { baseY := floor.elevation_ft + FLOOR_GAP / 2,
             extrudeHeight := floor.height_ft - FLOOR_GAP,
             footprint := poly,
             color := useColor floor.use }

/-- BulkheadMesh, BuildingMesh source lines 351-383: same skip for degenerate
footprints; the extrusion has no gap and sits at elevation_ft. -/
def BulkheadMesh (bulkhead : Bulkhead) : Option Solid :=
  match bulkhead.footprint with
  | none => none
  | some poly =>
    if poly.length < 3 then none
    else
      some { baseY := bulkhead.elevation_ft,
             extrudeHeight := bulkhead.height_ft,
             footprint := poly,
             color := JsValue.str "#888888" }

/-- Lot boundary polyline, LotPlane source lines 14-21: the polygon closed at
elevation 0.15 when it has at least 3 points, otherwise a rectangle fallback
from the (defaulted) frontage and depth. -/
def lotBoundary (lot : Lot) : List Point3 :=
  let polygon := lot.polygon.getD []
  let w := jsOr lot.frontage_ft 50
  let d := jsOr lot.depth_ft 100
  match polygon with
  | p0 :: p1 :: p2 :: rest =>
    ((p0 :: p1 :: p2 :: rest).map fun p => Point3.mk p.1 (3/20) p.2)
      ++ [Point3.mk p0.1 (3/20) p0.2]
  | _ =>
    [⟨0, 3/20, 0⟩, ⟨w, 3/20, 0⟩, ⟨w, 3/20, d⟩, ⟨0, 3/20, d⟩, ⟨0, 3/20, 0⟩]

/-- Lot fill shape, LotPlane source lines 24-41: the polygon itself when it
has at least 3 points, otherwise the same rectangle fallback. -/
def lotFillShape (lot : Lot) : List (ℚ × ℚ) :=
  let polygon := lot.polygon.getD []
  let w := jsOr lot.frontage_ft 50
  let d := jsOr lot.depth_ft 100
  if 3 ≤ polygon.length then polygon else [(0, 0), (w, 0), (w, d), (0, d)]

/-- Scenario record (fields the comparison view reads). -/
structure Scenario where
  name : String
  floors : List Floor
  deriving DecidableEq, Repr

/-- Scenario shown on the left of the comparison view:
const scA = scenarios[scenarioA]  (ComparisonView source line 383). -/
def comparisonScA (scenarios : List Scenario) (scenarioA : Nat) : Option Scenario :=
  scenarios[scenarioA]?

/-- Scenario shown on the right of the comparison view:
const scB = scenarios[scenarioB] || scenarios[0]  (ComparisonView source
line 384): only an out-of-range index falls back, and the fallback is
index 0. -/
def comparisonScB (scenarios : List Scenario) (scenarioB : Nat) : Option Scenario :=
  (scenarios[scenarioB]?).orElse fun _ => scenarios[0]?

/-- Interaction state owned by App (source part_000 lines 22-30). -/
structure AppState where
  activeScenario : Nat
  selectedFloor : Option Floor
  hoveredFloor : Option Floor
  comparisonMode : Bool
  comparisonScenario : Nat
  deriving DecidableEq, Repr

/-- The scenario select onChange handler (App source lines 151-155): set the
active index and clear both the selected and the hovered floor. -/
def selectScenario (s : AppState) (i : Nat) : AppState :=
  { s with activeScenario := i, selectedFloor := none, hoveredFloor := none }

/-- Effect of a click on a floor solid.  In single view App wires
onFloorClick = setSelectedFloor (line 212); in comparison mode ComparisonView
wires the no-op callback () =>  to every floor of both scenario groups
(lines 439-440 and 462-463), so the state is unchanged. -/
def floorClick (s : AppState) (f : Floor) : AppState :=
  if s.comparisonMode then s else { s with selectedFloor := some f }

/-- Effect of a hover event on a floor solid (the payload is the floor on
pointer-enter and none on pointer-leave).  In single view App wires
onFloorHover = setHoveredFloor (line 213); in comparison mode the wired
callback is the no-op, so the state is unchanged. -/
def floorHover (s : AppState) (f : Option Floor) : AppState :=
  if s.comparisonMode then s else { s with hoveredFloor := f }

/-- A 50 x 100 lot with no polygon (rectangle fallback applies). -/
def lotC1 : Lot := { polygon := none, frontage_ft := some 50, depth_ft := some 100 }

/-- Envelope with max height 100 and an absent base height. -/
def envC1 : ZoningEnvelope :=
  { max_height_ft := some 100, base_height_max_ft := none,
    setback_line := none, sky_exposure_plane := none }

/-- Envelope with a 2-point setback line and an absent base height. -/
def envC2 : ZoningEnvelope :=
  { max_height_ft := some 100, base_height_max_ft := none,
    setback_line := some [(10, 0), (10, 70)], sky_exposure_plane := none }

/-- The demo ground floor: commercial, elevation 0, height 15, on the
50 x 70 building rectangle (App source getDemoData). -/
def demoRect : List (ℚ × ℚ) := [(0, 0), (50, 0), (50, 70), (0, 70)]

/-- Single commercial floor of height 15 at elevation 0. -/
def demoFloor1 : Floor :=
  { floor_num := 1, use := "commercial", elevation_ft := 0, height_ft := 15,
    footprint := some demoRect }

/-- The solid the massing builder must produce for demoFloor1:
vertical extent [0.15, 14.85] = [3/20, 297/20]. -/
def demoSolid1 : Solid :=
  { baseY := 3/20, extrudeHeight := 147/10, footprint := demoRect,
    color := JsValue.str "#4A90D9" }

/-- Sky-exposure parameters start_height 60, slope 2.7. -/
def sepC4 : SkyExposureParams := { start_height := some 60, slope := some (27/10) }

/-- A floor whose footprint has only 2 points. -/
def floorBad : Floor :=
  { floor_num := 2, use := "residential", elevation_ft := 10, height_ft := 10,
    footprint := some [(0, 0), (1, 0)] }

/-- A bulkhead whose footprint has only 1 point. -/
def bulkBad : Bulkhead := { footprint := some [(0, 0)], height_ft := 15, elevation_ft := 85 }

/-- A lot whose polygon is present but empty. -/
def lotBad : Lot := { polygon := some [], frontage_ft := some 50, depth_ft := some 100 }

/-- Two distinct demo scenarios. -/
def scenA : Scenario := { name := "Scenario A", floors := [] }

/-- Second demo scenario. -/
def scenB : Scenario := { name := "Scenario B", floors := [demoFloor1] }

/-- Demo scenario list. -/
def scsDemo : List Scenario := [scenA, scenB]

/-- An app state in comparison mode. -/
def stateCmp : AppState :=
  { activeScenario := 0, selectedFloor := none, hoveredFloor := none,
    comparisonMode := true, comparisonScenario := 1 }

/-- Envelope with every numeric field absent (sky-exposure object present but
with both parameters absent). -/
def envAbsent : ZoningEnvelope :=
  { max_height_ft := none, base_height_max_ft := none,
    setback_line := none, sky_exposure_plane := some { start_height := none, slope := none } }

/-- Lot with every numeric field absent. -/
def lotAbsent : Lot := { polygon := none, frontage_ft := none, depth_ft := none }

/-- Envelope with every numeric field present but zero. -/
def envZero : ZoningEnvelope :=
  { max_height_ft := some 0, base_height_max_ft := some 0,
    setback_line := none, sky_exposure_plane := some { start_height := some 0, slope := some 0 } }

/-- Lot with zero frontage and depth. -/
def lotZero : Lot := { polygon := none, frontage_ft := some 0, depth_ft := some 0 }

/-- Envelope with the default values written out explicitly. -/
def envExplicit : ZoningEnvelope :=
  { max_height_ft := some 100, base_height_max_ft := some 60,
    setback_line := none,
    sky_exposure_plane := some { start_height := some 60, slope := some (27/10) } }

/-- Lot with the default frontage and depth written out explicitly. -/
def lotExplicit : Lot := { polygon := none, frontage_ft := some 50, depth_ft := some 100 }

/-- A missing field selects the default. -/
theorem jsOr_none (d : ℚ) : jsOr none d = d := rfl

/-- Every point of a polyline lifted to elevation b lies at elevation b. -/
theorem all_lifted_at (l : List (ℚ × ℚ)) (b : ℚ) :
    ((l.map fun p => Point3.mk p.1 b p.2).all fun q => q.y == b) = true := by
  induction l with
  | nil => rfl
  | cons a t ih => simp [List.all_cons, ih]

/-- The projector output contains a base-height plane exactly when the
defaulted base height is strictly between 0 and the defaulted max height. -/
theorem basePlane_any_iff (envelope : ZoningEnvelope) (lot : Lot) :
    (renderZoningEnvelope envelope lot).any isBasePlane = true ↔
      (0 < jsOr envelope.base_height_max_ft 60 ∧
       jsOr envelope.base_height_max_ft 60 < jsOr envelope.max_height_ft 100) := by
  obtain ⟨mh, bh, sl, sep⟩ := envelope
  by_cases h : 0 < jsOr bh 60 ∧ jsOr bh 60 < jsOr mh 100 <;>
    rcases sl with _ | (_ | ⟨p0, (_ | ⟨p1, rest⟩)⟩) <;>
    rcases sep with _ | sp <;>
    simp [renderZoningEnvelope, isBasePlane, h, List.any_append]

/-- The max-height plane is unconditionally part of the projector output. -/
theorem maxPlane_any (envelope : ZoningEnvelope) (lot : Lot) :
    (renderZoningEnvelope envelope lot).any isMaxPlane = true := by
  simp [renderZoningEnvelope, isMaxPlane, List.any_append]

/-- The four vertical corner edges are unconditionally part of the projector
output. -/
theorem verticalEdge_any (envelope : ZoningEnvelope) (lot : Lot) :
    (renderZoningEnvelope envelope lot).any isVerticalEdge = true := by
  simp [renderZoningEnvelope, isVerticalEdge, List.any_append]

/-- With a setback line of at least 2 points, the projector output contains
the setback line at grade and the setback line at the defaulted base
height. -/
theorem setback_elems_any (envelope : ZoningEnvelope) (lot : Lot)
    (sb : List (ℚ × ℚ)) (h1 : envelope.setback_line = some sb)
    (h2 : 2 ≤ sb.length) :
    (renderZoningEnvelope envelope lot).any isSetbackAtGrade = true ∧
    (renderZoningEnvelope envelope lot).any
      (isSetbackAtBaseY (jsOr envelope.base_height_max_ft 60)) = true := by
  rcases sb with _ | ⟨p0, _ | ⟨p1, rest⟩⟩
  · simp at h2
  · simp at h2
  · constructor <;>
      simp [renderZoningEnvelope, h1, isSetbackAtGrade, isSetbackAtBaseY,
        List.any_append, all_lifted_at]

/-- Claim C1, counterexample: an envelope whose base_height_max_ft is absent
still gets a base-height overlay — the projector substitutes the default 60,
and 0 < 60 < 100 holds, so the base-height plane is rendered, contradicting
the claim that no overlay is produced for an absent base height. -/
theorem C1_counterexample :
    envC1.base_height_max_ft = none ∧
    (renderZoningEnvelope envC1 lotC1).any isBasePlane = true := by
  decide

/-- Claim C1, amended: the base-height overlay is rendered iff
0 < baseH < maxH where baseH is base_height_max_ft with absent or zero
values replaced by the default 60, and maxH is max_height_ft with absent or
zero values replaced by the default 100.  In particular a present, nonzero
base height that is at least the (effective) max height suppresses the
overlay, but an absent base height does not. -/
theorem C1_basePlane_iff_defaults (envelope : ZoningEnvelope) (lot : Lot) :
    (renderZoningEnvelope envelope lot).any isBasePlane = true ↔
      (0 < jsOr envelope.base_height_max_ft 60 ∧
       jsOr envelope.base_height_max_ft 60 < jsOr envelope.max_height_ft 100) :=
  basePlane_any_iff envelope lot

/-- Claim C6: switching the active scenario always clears both the selected
and the hovered floor, whatever the previous state, and records the new
index. -/
theorem C6_scenario_switch_clears_floors (s : AppState) (i : Nat) :
    (selectScenario s i).selectedFloor = none ∧
    (selectScenario s i).hoveredFloor = none ∧
    (selectScenario s i).activeScenario = i := by
  simp [selectScenario]

/-- Claim C8: in comparison mode the floor click and hover callbacks wired to
every floor solid are no-ops, so no pointer interaction changes the
selected-floor or hovered-floor state. -/
theorem C8_comparison_readonly (s : AppState) (f : Floor) (g : Option Floor)
    (h : s.comparisonMode = true) :
    floorClick s f = s ∧ floorHover s g = s := by
  simp [floorClick, floorHover, h]

/-- Witness for C8 at a concrete comparison-mode state. -/
theorem C8_witness :
    floorClick stateCmp demoFloor1 = stateCmp ∧
    floorHover stateCmp (some demoFloor1) = stateCmp :=
  C8_comparison_readonly stateCmp demoFloor1 (some demoFloor1) rfl

/-- Claim C5, counterexample: with scenario list [scenA, scenB], active index
1 and requested comparison index 1 (equal to the active index), the
comparison view shows scenario 1 on both sides — it does not fall back to
index 0, and the two compared scenarios are not distinct. -/
theorem C5_counterexample :
    comparisonScA scsDemo 1 = some scenB ∧
    comparisonScB scsDemo 1 = some scenB ∧
    comparisonScB scsDemo 1 ≠ some scenA := by
  decide

/-- Claim C5, amended: the comparison-view fallback is driven only by range,
not by equality with the active index: an in-range comparison index is used
as-is (even when it equals the active index, so the compared scenarios need
not be distinct), and an out-of-range index falls back to scenario index 0.
There is no fallback to index 1 when the active index is 0. -/
theorem C5_comparison_fallback (scenarios : List Scenario) (b : Nat) :
    (b < scenarios.length → comparisonScB scenarios b = scenarios[b]?) ∧
    (scenarios.length ≤ b → comparisonScB scenarios b = scenarios[0]?) := by
  constructor
  · intro h
    rw [comparisonScB, List.getElem?_eq_getElem h]
    rfl
  · intro h
    rw [comparisonScB, List.getElem?_eq_none h]
    rfl

/-- Witness for C5 on the demo list: index 1 is in range and used as-is,
index 5 is out of range and falls back to index 0. -/
theorem C5_witness :
    comparisonScB scsDemo 1 = scsDemo[1]? ∧ comparisonScB scsDemo 5 = scsDemo[0]? :=
  ⟨(C5_comparison_fallback scsDemo 1).1 (by decide),
   (C5_comparison_fallback scsDemo 5).2 (by decide)⟩

/-- Claim C3: for a floor with a valid footprint and height_ft above the gap,
the massing builder extrudes by exactly height_ft - FLOOR_GAP and places the
base at exactly elevation_ft + FLOOR_GAP / 2, so the top of the solid sits
at elevation_ft + height_ft - FLOOR_GAP / 2. -/
theorem C3_floor_extrusion (floor : Floor) (poly : List (ℚ × ℚ))
    (h1 : floor.footprint = some poly) (h2 : 3 ≤ poly.length)
    (h3 : FLOOR_GAP < floor.height_ft) :
    FloorMesh floor =
      some { baseY := floor.elevation_ft + FLOOR_GAP / 2,
             extrudeHeight := floor.height_ft - FLOOR_GAP,
             footprint := poly,
             color := useColor floor.use } ∧
    (floor.elevation_ft + FLOOR_GAP / 2) + (floor.height_ft - FLOOR_GAP)
      = floor.elevation_ft + floor.height_ft - FLOOR_GAP / 2 := by
  constructor
  · rw [FloorMesh, h1]
    dsimp only
    rw [if_neg (by omega : ¬ poly.length < 3)]
  · ring

/-- Witness for C3 at the concrete demo floor (height 15, elevation 0):
exactly one solid with vertical extent [3/20, 297/20] = [0.15, 14.85]. -/
theorem C3_witness :
    FloorMesh demoFloor1 = some demoSolid1 ∧
    solidBottom demoSolid1 = 3/20 ∧ solidTop demoSolid1 = 297/20 := by
  have h := C3_floor_extrusion demoFloor1 demoRect rfl (by decide)
    (by norm_num [FLOOR_GAP, demoFloor1])
  refine ⟨?_, by norm_num [solidBottom, demoSolid1], by norm_num [solidTop, demoSolid1]⟩
  rw [h.1]
  norm_num [demoFloor1, demoSolid1, FLOOR_GAP, Solid.mk.injEq]
  decide

/-- Claim C4: the sky-exposure quad has its front edge at the start height on
z = 0 across the lot width and its far edge at z = depth with height
min (start_height + depth * slope) 300, whenever the three parameters are
present and nonzero (so the defaults do not engage). -/
theorem C4_sky_exposure_quad (sep : SkyExposureParams) (lot : Lot)
    (s m dp : ℚ) (hs : sep.start_height = some s) (hs0 : s ≠ 0)
    (hm : sep.slope = some m) (hm0 : m ≠ 0)
    (hd : lot.depth_ft = some dp) (hd0 : dp ≠ 0) :
    SkyExposurePlaneVerts sep lot =
      [⟨0, s, 0⟩, ⟨jsOr lot.frontage_ft 50, s, 0⟩,
       ⟨jsOr lot.frontage_ft 50, min (s + dp * m) 300, dp⟩,
       ⟨0, min (s + dp * m) 300, dp⟩] := by
  simp [SkyExposurePlaneVerts, jsOr, hs, hm, hd, hs0, hm0, hd0]

/-- Witness for C4 at frontage 50, depth 100, start height 60, slope 2.7:
the far-edge height is min (60 + 100 * 2.7) 300 = 300, so the cap engages. -/
theorem C4_witness :
    SkyExposurePlaneVerts sepC4 lotC1 =
      [⟨0, 60, 0⟩, ⟨50, 60, 0⟩, ⟨50, 300, 100⟩, ⟨0, 300, 100⟩] := by
  have h := C4_sky_exposure_quad sepC4 lotC1 60 (27/10) 100 rfl (by decide)
    rfl (by norm_num) rfl (by decide)
  rw [h]
  have h330 : (60:ℚ) + 100 * (27/10) = 330 := by norm_num
  rw [h330, min_eq_right (by norm_num : (300:ℚ) ≤ 330)]
  norm_num [jsOr, lotC1]

/-- Claim C2, counterexample: an envelope with a 2-point setback line and an
absent base_height_max_ft still renders BOTH the setback line at the default
base height 60 and the base-height plane — the defensive skip the claim
describes does not exist, because the absent base height defaults to 60. -/
theorem C2_counterexample :
    envC2.base_height_max_ft = none ∧
    envC2.setback_line = some [(10, 0), (10, 70)] ∧
    (renderZoningEnvelope envC2 lotC1).any (isSetbackAtBaseY 60) = true ∧
    (renderZoningEnvelope envC2 lotC1).any isBasePlane = true := by
  decide

/-- Claim C2, amended: for an envelope with a setback line of at least 2
points and base_height_max_ft unset, the projector renders the
setback-at-grade line, the max-height plane and the vertical corner edges,
AND also renders the setback line at the default base height 60; the
base-height plane is rendered exactly when 60 is below the (defaulted) max
height. -/
theorem C2_setback_with_default_base (envelope : ZoningEnvelope) (lot : Lot)
    (sb : List (ℚ × ℚ)) (h1 : envelope.setback_line = some sb)
    (h2 : 2 ≤ sb.length) (h3 : envelope.base_height_max_ft = none) :
    (renderZoningEnvelope envelope lot).any isSetbackAtGrade = true ∧
    (renderZoningEnvelope envelope lot).any (isSetbackAtBaseY 60) = true ∧
    (renderZoningEnvelope envelope lot).any isMaxPlane = true ∧
    (renderZoningEnvelope envelope lot).any isVerticalEdge = true ∧
    ((renderZoningEnvelope envelope lot).any isBasePlane = true ↔
      (60:ℚ) < jsOr envelope.max_height_ft 100) := by
  have hsb := setback_elems_any envelope lot sb h1 h2
  rw [h3, jsOr_none] at hsb
  have hbp := basePlane_any_iff envelope lot
  rw [h3, jsOr_none] at hbp
  refine ⟨hsb.1, hsb.2, maxPlane_any envelope lot, verticalEdge_any envelope lot, ?_⟩
  refine hbp.trans ⟨fun h => h.2, fun h => ⟨by norm_num, h⟩⟩

/-- Witness for C2 at the concrete envelope envC2 (setback line of 2 points,
base height unset, max height 100) over the 50 x 100 lot. -/
theorem C2_witness :
    (renderZoningEnvelope envC2 lotC1).any isSetbackAtGrade = true ∧
    (renderZoningEnvelope envC2 lotC1).any isMaxPlane = true ∧
    (renderZoningEnvelope envC2 lotC1).any isVerticalEdge = true := by
  have h := C2_setback_with_default_base envC2 lotC1 [(10, 0), (10, 70)]
    rfl (by decide) rfl
  exact ⟨h.1, h.2.2.1, h.2.2.2.1⟩

/-- Claim C7, counterexample: a lot whose polygon has fewer than 3 points is
NOT skipped — the lot boundary and fill fall back to a default rectangle
(5 boundary points, 4 fill points), contradicting the claim that the
dependent visual element is skipped entirely for every degenerate input. -/
theorem C7_counterexample :
    lotBad.polygon = some [] ∧
    (lotBoundary lotBad).length = 5 ∧
    lotFillShape lotBad ≠ [] := by
  decide

/-- Claim C7, amended: a floor or bulkhead footprint with fewer than 3 points
produces no solid and raises no error, but the lot boundary and fill do not
skip — a lot polygon with fewer than 3 points is replaced by the rectangle
built from the (defaulted) frontage and depth. -/
theorem C7_degenerate_polygons (floor : Floor) (bulkhead : Bulkhead) (lot : Lot)
    (pf pb : List (ℚ × ℚ))
    (h1 : floor.footprint = some pf) (h2 : pf.length < 3)
    (h3 : bulkhead.footprint = some pb) (h4 : pb.length < 3)
    (h5 : (lot.polygon.getD []).length < 3) :
    FloorMesh floor = none ∧
    BulkheadMesh bulkhead = none ∧
    lotBoundary lot =
      [⟨0, 3/20, 0⟩, ⟨jsOr lot.frontage_ft 50, 3/20, 0⟩,
       ⟨jsOr lot.frontage_ft 50, 3/20, jsOr lot.depth_ft 100⟩,
       ⟨0, 3/20, jsOr lot.depth_ft 100⟩, ⟨0, 3/20, 0⟩] ∧
    lotFillShape lot =
      [(0, 0), (jsOr lot.frontage_ft 50, 0),
       (jsOr lot.frontage_ft 50, jsOr lot.depth_ft 100),
       (0, jsOr lot.depth_ft 100)] := by
  refine ⟨?_, ?_, ?_, ?_⟩
  · rw [FloorMesh, h1]
    dsimp only
    rw [if_pos h2]
  · rw [BulkheadMesh, h3]
    dsimp only
    rw [if_pos h4]
  · rw [lotBoundary]
    rcases hp : lot.polygon.getD [] with _ | ⟨a, _ | ⟨b, _ | ⟨c, rest⟩⟩⟩
    · rfl
    · rfl
    · rfl
    · rw [hp] at h5
      simp at h5
      omega
  · rw [lotFillShape]
    rw [if_neg (by omega : ¬ 3 ≤ (lot.polygon.getD []).length)]

/-- Witness for C7 at concrete degenerate inputs: a 2-point floor footprint,
a 1-point bulkhead footprint, and an empty lot polygon on a 50 x 100 lot. -/
theorem C7_witness :
    FloorMesh floorBad = none ∧
    BulkheadMesh bulkBad = none ∧
    lotBoundary lotBad =
      [⟨0, 3/20, 0⟩, ⟨50, 3/20, 0⟩, ⟨50, 3/20, 100⟩, ⟨0, 3/20, 100⟩, ⟨0, 3/20, 0⟩] ∧
    lotFillShape lotBad = [(0, 0), (50, 0), (50, 100), (0, 100)] := by
  have h := C7_degenerate_polygons floorBad bulkBad lotBad [(0, 0), (1, 0)] [(0, 0)]
    rfl (by decide) rfl (by decide) (by decide)
  have e1 : jsOr (some (50:ℚ)) 50 = 50 := by decide
  have e2 : jsOr (some (100:ℚ)) 100 = 100 := by decide
  simpa [lotBad, e1, e2] using h

/-- For a use value outside the enumeration, the own-property search of
USE_COLORS comes up empty. -/
theorem useColors_find_none (u : String) (hu : u ∉ enumeratedUses) :
    USE_COLORS.find? (fun p => p.1 == u) = none := by
  apply List.find?_eq_none.mpr
  intro p hp
  have hmem : p.1 ∈ enumeratedUses := by
    have hm : p.1 ∈ USE_COLORS.map Prod.fst := List.mem_map_of_mem Prod.fst hp
    exact (show USE_COLORS.map Prod.fst = enumeratedUses from rfl) ▸ hm
  rw [Bool.not_eq_true, beq_eq_false_iff_ne]
  intro heq
  exact hu (heq ▸ hmem)

/-- Claim C9, counterexample: the use value constructor is outside the
enumeration, yet the lookup hits the prototype chain of the object literal:
the inherited (truthy) value is assigned, not the neutral gray fallback, so
the universally-quantified fallback part of the claim is false of the
program. -/
theorem C9_counterexample :
    "constructor" ∉ enumeratedUses ∧
    useColor "constructor" = JsValue.protoFn "constructor" ∧
    useColor "constructor" ≠ JsValue.str "#cccccc" := by
  decide

/-- Claim C9, amended: the floor color is a total function of the use value
and never errors — each of the seven enumerated uses maps to its fixed
palette entry, and every value outside the enumeration that is not the name
of a property inherited from Object.prototype maps to the neutral gray
fallback; but a use value naming an inherited Object.prototype property
yields that truthy inherited (non-color) value instead of the gray
fallback. -/
theorem C9_use_color_total :
    (useColor "commercial" = JsValue.str "#4A90D9" ∧
     useColor "residential" = JsValue.str "#F5E6CC" ∧
     useColor "community_facility" = JsValue.str "#6BBF6B" ∧
     useColor "parking" = JsValue.str "#999999" ∧
     useColor "mechanical" = JsValue.str "#777777" ∧
     useColor "cellar" = JsValue.str "#777777" ∧
     useColor "core" = JsValue.str "#555555") ∧
    (∀ u : String, u ∉ enumeratedUses → u ∉ OBJECT_PROTOTYPE_KEYS →
      useColor u = JsValue.str "#cccccc") ∧
    (∀ u : String, u ∉ enumeratedUses → u ∈ OBJECT_PROTOTYPE_KEYS →
      useColor u = JsValue.protoFn u) := by
  refine ⟨by decide, ?_, ?_⟩
  · intro u hu hp
    have h2 : jsIndexUseColors u = JsValue.undef := by
      unfold jsIndexUseColors
      rw [useColors_find_none u hu]
      dsimp only
      rw [if_neg hp]
    unfold useColor
    rw [h2]
    rfl
  · intro u hu hp
    have h2 : jsIndexUseColors u = JsValue.protoFn u := by
      unfold jsIndexUseColors
      rw [useColors_find_none u hu]
      dsimp only
      rw [if_pos hp]
    unfold useColor
    rw [h2]
    rfl

/-- Witness for C9 at the concrete values office (neither enumerated nor
inherited, so gray) and toString (inherited from Object.prototype, so the
inherited value, not gray). -/
theorem C9_witness :
    ("office" ∉ enumeratedUses ∧ "office" ∉ OBJECT_PROTOTYPE_KEYS ∧
      useColor "office" = JsValue.str "#cccccc") ∧
    ("toString" ∉ enumeratedUses ∧ "toString" ∈ OBJECT_PROTOTYPE_KEYS ∧
      useColor "toString" = JsValue.protoFn "toString") :=
  ⟨⟨by decide, by decide, C9_use_color_total.2.1 "office" (by decide) (by decide)⟩,
   ⟨by decide, by decide, C9_use_color_total.2.2 "toString" (by decide) (by decide)⟩⟩

/-- Claim C10: the projector substitutes the fixed defaults — frontage 50,
depth 100, max height 100, base height 60, sky-exposure start height 60 and
slope 2.7 — both for absent fields and for zero-valued fields, and the
envelope overlay is still drawn with these fabricated dimensions rather than
suppressed. -/
theorem C10_defaults_substituted :
    renderZoningEnvelope envAbsent lotAbsent = renderZoningEnvelope envExplicit lotExplicit ∧
    renderZoningEnvelope envZero lotZero = renderZoningEnvelope envExplicit lotExplicit ∧
    renderZoningEnvelope envAbsent lotAbsent ≠ [] := by
  refine ⟨?_, ?_, ?_⟩
  · norm_num [renderZoningEnvelope, SkyExposurePlaneVerts, jsOr,
      envAbsent, lotAbsent, envExplicit, lotExplicit]
  · norm_num [renderZoningEnvelope, SkyExposurePlaneVerts, jsOr,
      envZero, lotZero, envExplicit, lotExplicit]
  · simp [renderZoningEnvelope]
